import Mathlib

/-!
Verification of the secure-ftp client/agent core, shallowly embedded from the
Python sources (`src/network_utils.py`, `src/clamav_agent.py`,
`src/ftp_client.py`, `src/ftp_commands.py`).  Pure string manipulation is
translated directly; socket, file-system and subprocess effects are made
explicit as environment records whose fields record the outcome of each
interaction point (a reply text, or `none` when the call raised), and the
embedded functions fold over those outcomes exactly in source order.
Strings are modelled over their character lists; character classes
(`isdigit`, whitespace for `strip`) are modelled on the ASCII fragment.
-/

namespace SecureFTP

/-- Value of an ASCII digit character (Python `int` of a single digit). -/
def digitVal (c : Char) : Nat := c.toNat - 48

/-- Decimal digit character for `n < 10` (Python integer formatting). -/
def decChar (n : Nat) : Char :=
  match n with
  | 0 => '0' | 1 => '1' | 2 => '2' | 3 => '3' | 4 => '4'
  | 5 => '5' | 6 => '6' | 7 => '7' | 8 => '8' | 9 => '9'
  | _ => '*'

/-- Fuel-driven decimal rendering of a natural number, most significant digit
first.  The fuel is structural so the definition reduces by `decide`/`rfl`. -/
def decDigitsAux : Nat → Nat → List Char
  | 0, _ => []
  | fuel + 1, n =>
    if n < 10 then [decChar n]
    else decDigitsAux fuel (n / 10) ++ [decChar (n % 10)]

/-- Decimal digit string of a natural number (Python `f"{n}"`). -/
def decDigits (n : Nat) : List Char := decDigitsAux (n + 1) n

/-- Python `f"{n}"` as a `String`. -/
def natToString (n : Nat) : String := ⟨decDigits n⟩

/-- Decimal value of a digit string (Python `int` on a digit-only string). -/
def valFold (init : Nat) (l : List Char) : Nat :=
  l.foldl (fun acc c => 10 * acc + digitVal c) init

/-- ASCII digit test (Python `str.isdigit` restricted to ASCII). -/
def isDigitC (c : Char) : Bool := 48 ≤ c.toNat && c.toNat ≤ 57

/-- ASCII whitespace test (the characters Python `str.strip` removes). -/
def pyIsSpace (c : Char) : Bool :=
  c.toNat = 32 || c.toNat = 9 || c.toNat = 10 || c.toNat = 11 || c.toNat = 12 || c.toNat = 13

/-- Python `str.strip()` (ASCII whitespace fragment). -/
def pyStrip (l : List Char) : List Char :=
  ((l.dropWhile pyIsSpace).reverse.dropWhile pyIsSpace).reverse

/-- Python `str.split(sep)` for a one-character separator. -/
def splitOnChar (sep : Char) : List Char → List (List Char)
  | [] => [[]]
  | c :: rest =>
    if c = sep then [] :: splitOnChar sep rest
    else
      match splitOnChar sep rest with
      | g :: gs => (c :: g) :: gs
      | [] => [[c]]

/-- Python `sep.join(parts)` for a one-character separator. -/
def joinWithChar (sep : Char) : List (List Char) → List Char
  | [] => []
  | [g] => g
  | g :: gs => g ++ sep :: joinWithChar sep gs

/-- Python `s.startswith(pre)`. -/
def pyStartsWith (s pre : String) : Bool :=
  s.data.take pre.data.length == pre.data

/-- Python `s.lower()` (ASCII fragment). -/
def pyLower (s : String) : String := ⟨s.data.map Char.toLower⟩

/-- Python `int(s)`: optional sign after stripping whitespace, then digits. -/
def pyParseInt (s : String) : Option Int :=
  match pyStrip s.data with
  | '-' :: ds => if ds ≠ [] ∧ ds.all isDigitC then some (-(valFold 0 ds : Nat)) else none
  | '+' :: ds => if ds ≠ [] ∧ ds.all isDigitC then some (valFold 0 ds : Nat) else none
  | ds => if ds ≠ [] ∧ ds.all isDigitC then some (valFold 0 ds : Nat) else none

/-! ## Response classifier (`network_utils.py`, class `FTPResponse`) -/

/-- A parsed FTP reply (`FTPResponse.__init__`). -/
structure FTPResponse where
  raw : String
  code : Option Nat
  message : String
deriving Repr, DecidableEq

/-- `FTPResponse.__init__`: strip the text, take the first line; if its first
three characters are digits the code is their value and the message is the
remainder after the fourth character. -/
def mkFTPResponse (s : String) : FTPResponse :=
  let firstLine := (pyStrip s.data).takeWhile (fun c => c ≠ '\n')
  if 3 ≤ firstLine.length ∧ (firstLine.take 3).all isDigitC then
    { raw := s
      code := some (valFold 0 (firstLine.take 3))
      message := if 3 < firstLine.length then ⟨firstLine.drop 4⟩ else "" }
  else
    { raw := s, code := none, message := "" }

/-- `FTPResponse.is_positive`: truthiness of `self.code and 200 <= self.code < 300`. -/
def FTPResponse.is_positive (r : FTPResponse) : Bool :=
  match r.code with
  | some c => decide (c ≠ 0) && decide (200 ≤ c) && decide (c < 300)
  | none => false

/-- `FTPResponse.is_positive_preliminary` (1xx). -/
def FTPResponse.is_positive_preliminary (r : FTPResponse) : Bool :=
  match r.code with
  | some c => decide (c ≠ 0) && decide (100 ≤ c) && decide (c < 200)
  | none => false

/-- `FTPResponse.is_positive_intermediate` (3xx). -/
def FTPResponse.is_positive_intermediate (r : FTPResponse) : Bool :=
  match r.code with
  | some c => decide (c ≠ 0) && decide (300 ≤ c) && decide (c < 400)
  | none => false

/-- `FTPResponse.is_error` (4xx and above). -/
def FTPResponse.is_error (r : FTPResponse) : Bool :=
  match r.code with
  | some c => decide (c ≠ 0) && decide (400 ≤ c)
  | none => false

/-- Exactly one of four booleans is set. -/
def exactlyOne (a b c d : Bool) : Bool :=
  a.toNat + b.toNat + c.toNat + d.toNat = 1

/-! ## PASV parsing and PORT building (`network_utils.py`) -/

/-- Consume one regex group `\d+` greedily (maximal digit run). -/
def readNat (l : List Char) : Option (Nat × List Char) :=
  let ds := l.takeWhile isDigitC
  if ds.isEmpty then none
  else some (valFold 0 ds, l.dropWhile isDigitC)

/-- Consume one expected literal character. -/
def expectChar (c : Char) : List Char → Option (List Char)
  | x :: rest => if x = c then some rest else none
  | [] => none

/-- One regex group followed by a literal separator: `(\d+)` then `sep`. -/
def readGroupSep (sep : Char) (l : List Char) : Option (Nat × List Char) :=
  match readNat l with
  | none => none
  | some (n, r) =>
    match expectChar sep r with
    | none => none
    | some r2 => some (n, r2)

/-- Match `\((\d+),(\d+),(\d+),(\d+),(\d+),(\d+)\)` at the head of `l`. -/
def matchSext (l : List Char) : Option (Nat × Nat × Nat × Nat × Nat × Nat) :=
  match expectChar '(' l with
  | none => none
  | some r0 =>
    match readGroupSep ',' r0 with
    | none => none
    | some (h1, r1) =>
      match readGroupSep ',' r1 with
      | none => none
      | some (h2, r2) =>
        match readGroupSep ',' r2 with
        | none => none
        | some (h3, r3) =>
          match readGroupSep ',' r3 with
          | none => none
          | some (h4, r4) =>
            match readGroupSep ',' r4 with
            | none => none
            | some (p1, r5) =>
              match readGroupSep ')' r5 with
              | none => none
              | some (p2, _) => some (h1, h2, h3, h4, p1, p2)

/-- Leftmost match of the sextuple pattern (`re.search`). -/
def findSext : List Char → Option (Nat × Nat × Nat × Nat × Nat × Nat)
  | [] => none
  | c :: rest =>
    match matchSext (c :: rest) with
    | some r => some r
    | none => findSext rest

/-- `NetworkUtils.parse_pasv_response`: find the first parenthesized
six-integer group; address is `h1.h2.h3.h4`, port is `p1*256 + p2`;
`none` when no group is present.  No range validation is performed. -/
def parse_pasv_response (s : String) : Option (String × Nat) :=
  match findSext s.data with
  | some (h1, h2, h3, h4, p1, p2) =>
    some (natToString h1 ++ "." ++ natToString h2 ++ "." ++
          natToString h3 ++ "." ++ natToString h4, p1 * 256 + p2)
  | none => none

/-- `NetworkUtils.create_port_command`: split the host on dots (must give
four parts, otherwise a `ValueError` is raised, modelled as `none`), rejoin
the parts verbatim with commas, and append `port // 256` and `port % 256`. -/
def create_port_command (host : String) (port : Nat) : Option String :=
  let parts := splitOnChar '.' host.data
  if parts.length = 4 then
    some ("PORT " ++ (⟨joinWithChar ',' parts⟩ : String) ++ "," ++
          natToString (port / 256) ++ "," ++ natToString (port % 256))
  else none

/-! ## Scan results and the scanner subprocess (`clamav_agent.py`) -/

/-- The `{status, message, details}` dictionary exchanged with the agent. -/
structure ScanResult where
  status : String
  message : String
  details : String
deriving Repr, DecidableEq

/-- Outcome of the `subprocess.run` call inside `ClamAVAgent.scan_file`:
either the process completed with an exit code and captured output, or the
bounded timeout fired (`subprocess.TimeoutExpired`), or some other exception
was raised. -/
inductive ScanProcOutcome
  | completed (returncode : Int) (stdout stderr : String)
  | timedOut
  | exnRaised (msg : String)
deriving Repr, DecidableEq

/-- `ClamAVAgent.scan_file`: maps the scanner subprocess outcome to a
`ScanResult` (exit 0 → OK, exit 1 → INFECTED, anything else → ERROR). -/
def scan_file (o : ScanProcOutcome) : ScanResult :=
  match o with
  | .completed rc out err =>
    if rc = 0 then
      { status := "OK", message := "File is clean", details := ⟨pyStrip out.data⟩ }
    else if rc = 1 then
      { status := "INFECTED", message := "Virus detected", details := ⟨pyStrip out.data⟩ }
    else
      { status := "ERROR", message := "Scan failed", details := ⟨pyStrip err.data⟩ }
  | .timedOut =>
    { status := "ERROR", message := "Scan timeout", details := "Scan took too long" }
  | .exnRaised m =>
    { status := "ERROR", message := "Scan failed", details := m }

/-! ## Agent connection handler (`ClamAVAgent.handle_client`)

Each socket interaction point of one accepted connection is recorded in an
`AgentConn`: `none` for a `recv` that raised, a `Bool` for a `send`/`open`
that can raise, and the subprocess outcome for the scan step (which never
raises out of `scan_file`). -/

structure AgentConn where
  /-- Text of the first message, `none` if `recv`/decode raised. -/
  recvFilename : Option String
  /-- `client_socket.send(b'READY')` after the filename succeeded. -/
  sendReady1Ok : Bool
  /-- Text of the second message, `none` if `recv`/decode raised. -/
  recvSize : Option String
  /-- Second `READY` send succeeded. -/
  sendReady2Ok : Bool
  /-- `open(temp_file_path, 'wb')` succeeded (the temp file now exists). -/
  openTempOk : Bool
  /-- The payload `recv`/`write` loop finished without raising (an early
  empty chunk merely breaks the loop and is not an exception). -/
  recvLoopOk : Bool
  /-- Outcome of the scanner subprocess. -/
  scanOutcome : ScanProcOutcome
  /-- Sending the JSON result back succeeded. -/
  sendResultOk : Bool
  /-- `temp_file_path.unlink()` succeeded. -/
  unlinkOk : Bool
deriving Repr, DecidableEq

/-- Temp-file facts observable when `handle_client` reaches its `finally`
block: whether the temp scan file was ever created, and whether it was
deleted before the handler closed the connection. -/
structure HandlerResult where
  tempCreated : Bool
  tempDeleted : Bool
deriving Repr, DecidableEq

/-- `ClamAVAgent.handle_client`: the protocol state machine per connection.
Any exception jumps to the `except` block (best-effort error reply) and then
the `finally` block, which only closes the socket — the unlink call sits on
the normal path, after the result send. -/
def handle_client (c : AgentConn) : HandlerResult :=
  match c.recvFilename with
  | none => ⟨false, false⟩
  | some fmsg =>
    if ¬ pyStartsWith fmsg "FILENAME:" then ⟨false, false⟩
    else if ¬ c.sendReady1Ok then ⟨false, false⟩
    else
      match c.recvSize with
      | none => ⟨false, false⟩
      | some smsg =>
        if ¬ pyStartsWith smsg "SIZE:" then ⟨false, false⟩
        else
          match pyParseInt ⟨smsg.data.drop 5⟩ with
          | none => ⟨false, false⟩
          | some _ =>
            if ¬ c.sendReady2Ok then ⟨false, false⟩
            else if ¬ c.openTempOk then ⟨false, false⟩
            else if ¬ c.recvLoopOk then ⟨true, false⟩
            else
              let _ := scan_file c.scanOutcome
              if ¬ c.sendResultOk then ⟨true, false⟩
              else ⟨true, c.unlinkOk⟩

/-! ## Scan-gateway client (`NetworkUtils.send_file_to_clamav`)

The environment records the outcome of each socket call in source order.
The agent's final JSON reply is modelled post-decode: `none` when the `recv`
raised, `some none` when the received text was not parseable JSON
(`json.loads` raised), `some (some r)` when it decoded to `r`. -/

structure ClamWorld where
  fileExists : Bool
  connectOk : Bool
  sendNameOk : Bool
  reply1 : Option String
  sendSizeOk : Bool
  reply2 : Option String
  /-- The file-read/`send` loop over the payload finished without raising. -/
  sendDataOk : Bool
  resultMsg : Option (Option ScanResult)
deriving Repr, DecidableEq

/-- The fixed dictionary built by the `except` clause of
`send_file_to_clamav`. -/
def clamFailure (d : String) : ScanResult :=
  { status := "ERROR", message := "Failed to scan file", details := d }

/-- `NetworkUtils.send_file_to_clamav`: FILENAME/READY, SIZE/READY, payload,
then the agent's JSON verdict returned verbatim; any exception on the way is
caught and turned into a fixed ERROR result. -/
def send_file_to_clamav (w : ClamWorld) : ScanResult :=
  if ¬ w.fileExists then
    { status := "ERROR", message := "File not found", details := "File does not exist" }
  else if ¬ w.connectOk then clamFailure "connection failed"
  else if ¬ w.sendNameOk then clamFailure "send failed"
  else
    match w.reply1 with
    | none => clamFailure "recv failed"
    | some r1 =>
      if r1 ≠ "READY" then clamFailure ("Unexpected response: " ++ r1)
      else if ¬ w.sendSizeOk then clamFailure "send failed"
      else
        match w.reply2 with
        | none => clamFailure "recv failed"
        | some r2 =>
          if r2 ≠ "READY" then clamFailure ("Unexpected response: " ++ r2)
          else if ¬ w.sendDataOk then clamFailure "send failed"
          else
            match w.resultMsg with
            | none => clamFailure "recv failed"
            | some none => clamFailure "json decode failed"
            | some (some r) => r

/-! ## Control session (`ftp_client.py`) -/

/-- The session flags owned by one `SecureFTPClient`. -/
structure ClientState where
  connected : Bool
  logged_in : Bool
deriving Repr, DecidableEq

/-- Outcome of reading the server greeting inside `connect`. -/
inductive Greeting
  | connectFail
  | recvTimeout
  | received (raw : String)
deriving Repr, DecidableEq

/-- `SecureFTPClient.connect`: read the greeting; succeed, and set
`connected`, exactly when the stripped text starts with `220`; a timeout or
connection error returns `False` with the state untouched. -/
def connect (st : ClientState) (g : Greeting) : Bool × ClientState :=
  match g with
  | .connectFail => (false, st)
  | .recvTimeout => (false, st)
  | .received raw =>
    if pyStartsWith ⟨pyStrip raw.data⟩ "220" then (true, { st with connected := true })
    else (false, st)

/-- Replies scripted for one `login` call; `none` marks a `receive_response`
that raised.  The `AUTH TLS` exchange is wrapped in its own `try` whose
exceptions are swallowed, so it cannot influence the flags and is omitted. -/
structure LoginWorld where
  userReply : Option String
  passReply : Option String
  userReply2 : Option String
  passReply2 : Option String
deriving Repr, DecidableEq

/-- Final step of `login`: on a positive reply set `logged_in`. -/
def loginFinish (st : ClientState) (r : FTPResponse) : Bool × ClientState :=
  if r.is_positive then (true, { st with logged_in := true }) else (false, st)

/-- `SecureFTPClient.login`: refuse when not connected; USER, then PASS on
331; on 503 retry the USER/PASS sequence once; succeed only on a final
positive reply. -/
def login (st : ClientState) (w : LoginWorld) : Bool × ClientState :=
  if ¬ st.connected then (false, st)
  else
    match w.userReply with
    | none => (false, st)
    | some raw1 =>
      let r1 := mkFTPResponse raw1
      if r1.code = some 331 then
        match w.passReply with
        | none => (false, st)
        | some raw2 => loginFinish st (mkFTPResponse raw2)
      else if r1.code = some 503 then
        match w.userReply2 with
        | none => (false, st)
        | some raw3 =>
          let r3 := mkFTPResponse raw3
          if r3.code = some 331 then
            match w.passReply2 with
            | none => (false, st)
            | some raw4 => loginFinish st (mkFTPResponse raw4)
          else loginFinish st r3
      else loginFinish st r1

/-- `SecureFTPClient.disconnect`: when connected, best-effort QUIT, then a
`finally` block resets both flags; when not connected, nothing happens. -/
def disconnect (st : ClientState) : ClientState :=
  if st.connected then { connected := false, logged_in := false } else st

/-- One client operation touching the session flags. -/
inductive ClientOp
  | connectOp (g : Greeting)
  | loginOp (w : LoginWorld)
  | disconnectOp
deriving Repr

/-- Session-flag semantics of a client operation. -/
def stepClient (st : ClientState) : ClientOp → ClientState
  | .connectOp g => (connect st g).2
  | .loginOp w => (login st w).2
  | .disconnectOp => disconnect st

/-! ## Transfer orchestrator (`ftp_commands.py`)

`cmd_put`/`cmd_get` are embedded as trace-producing functions: every
externally visible action (a control-connection command, the creation of a
data socket, …) is emitted as an event, and the scripted environment decides
each branch exactly where the source consults a socket. -/

/-- Externally visible actions of one transfer command. -/
inductive Ev
  /-- The local file was submitted to the scan gateway. -/
  | scanSubmitted
  /-- `send_command(s)` on the control connection. -/
  | sendCmd (s : String)
  /-- Passive mode: the data socket was created and connected. -/
  | dataConnected
  /-- Active mode: a listening data socket was created. -/
  | dataListening
  /-- Active mode: `accept()` produced the transfer socket. -/
  | dataAccepted
  /-- The data socket was closed. -/
  | dataClosed
deriving Repr, DecidableEq

/-- Environment for one `open_data_connection` attempt. -/
structure DataNegWorld where
  /-- Reply to PASV; `none` if `receive_response` raised. -/
  pasvReply : Option String
  /-- Passive mode: `data_socket.connect` to the parsed address succeeded. -/
  connectOk : Bool
  /-- Active mode: local address taken from the control socket. -/
  localHost : String
  /-- Active mode: the ephemeral port the data socket bound to. -/
  localPort : Nat
  /-- Reply to PORT; `none` if `receive_response` raised. -/
  portReply : Option String
deriving Repr, DecidableEq

/-- `SecureFTPClient.open_data_connection`: PASV (parse the sextuple, then
create and connect the data socket) or PORT (bind and listen first, then
send the encoded address).  Returns the emitted events and whether a data
socket was obtained; `false` means the exception propagated to the caller. -/
def open_data_connection (passiveMode : Bool) (w : DataNegWorld) : List Ev × Bool :=
  if passiveMode then
    let evs := [Ev.sendCmd "PASV"]
    match w.pasvReply with
    | none => (evs, false)
    | some raw =>
      let r := mkFTPResponse raw
      if ¬ r.is_positive then (evs, false)
      else
        match parse_pasv_response r.message with
        | none => (evs, false)
        | some _ => if w.connectOk then (evs ++ [Ev.dataConnected], true) else (evs, false)
  else
    let evs := [Ev.dataListening]
    match create_port_command w.localHost w.localPort with
    | none => (evs, false)
    | some cmd =>
      let evs := evs ++ [Ev.sendCmd cmd]
      match w.portReply with
      | none => (evs, false)
      | some raw =>
        if (mkFTPResponse raw).is_positive then (evs, true)
        else (evs ++ [Ev.dataClosed], false)

/-- Environment for one `cmd_put` invocation. -/
structure PutWorld where
  connected : Bool
  logged_in : Bool
  /-- `args` was non-empty. -/
  hasArgs : Bool
  remoteFile : String
  /-- `os.path.exists(local_file)`. -/
  localExists : Bool
  /-- Verdict returned by the scan gateway client. -/
  scanResult : ScanResult
  /-- Operator's answer to "Continue upload without scan?". -/
  confirmInput : String
  passiveMode : Bool
  neg : DataNegWorld
  /-- Reply to STOR; `none` if `receive_response` raised. -/
  storReply : Option String
  /-- `send_file_via_socket` returned `True`. -/
  sendFileOk : Bool
  /-- Completion reply; `none` if `receive_response` raised. -/
  doneReply : Option String
deriving Repr, DecidableEq

/-- `FTPCommands.cmd_put`: connection/arg/existence checks, then the virus
scan; INFECTED blocks the upload outright, ERROR requires an explicit `y`
from the operator; only then is a data channel negotiated and STOR sent. -/
def cmd_put (w : PutWorld) : List Ev :=
  if ¬ (w.connected ∧ w.logged_in) then []
  else if ¬ w.hasArgs then []
  else if ¬ w.localExists then []
  else
    let evs := [Ev.scanSubmitted]
    if w.scanResult.status = "INFECTED" then evs
    else if w.scanResult.status = "ERROR" ∧ pyLower w.confirmInput ≠ "y" then evs
    else
      let nevs := (open_data_connection w.passiveMode w.neg).1
      let ok := (open_data_connection w.passiveMode w.neg).2
      let evs := evs ++ nevs
      if ¬ ok then evs
      else
        let evs := evs ++ [Ev.sendCmd ("STOR " ++ w.remoteFile)]
        match w.storReply with
        | none => evs
        | some raw =>
          if (mkFTPResponse raw).is_positive_preliminary then
            let evs := evs ++ (if w.passiveMode then [] else [Ev.dataAccepted])
            evs ++ [Ev.dataClosed]
          else evs ++ [Ev.dataClosed]

/-- Outcome of `receive_file_via_socket` for one download: the local file
could not even be opened (returns `False`, no file on disk); the loop
completed because the peer closed (returns `True`, file on disk); or an
exception aborted the loop after bytes were written (caught inside the
helper, returns `False`, partial file on disk). -/
inductive RecvOutcome
  | openFailed
  | completed
  | abortedAfterWrite
deriving Repr, DecidableEq

/-- Environment for one `cmd_get` invocation. -/
structure GetWorld where
  connected : Bool
  logged_in : Bool
  hasArgs : Bool
  remoteFile : String
  passiveMode : Bool
  neg : DataNegWorld
  /-- Reply to RETR; `none` if `receive_response` raised. -/
  retrReply : Option String
  recvOutcome : RecvOutcome
  /-- Completion reply; `none` if `receive_response` raised. -/
  doneReply : Option String
  /-- `os.remove(local_file)` succeeded. -/
  removeOk : Bool
deriving Repr, DecidableEq

/-- Observable outcome of one `cmd_get` invocation. -/
structure GetResult where
  events : List Ev
  /-- The local destination file was created (bytes possibly written). -/
  fileCreated : Bool
  /-- The local file still exists when `cmd_get` returns. -/
  fileRemains : Bool
  /-- The success message was reached. -/
  succeeded : Bool
deriving Repr, DecidableEq

/-- `FTPCommands.cmd_get`: negotiate a data channel, send RETR, and on a
preliminary-positive reply stream into the local file; afterwards read the
completion reply; on `success and response.is_positive()` keep the file,
otherwise try to `os.remove` it.  An exception anywhere lands in the
`except` block, which only prints. -/
def cmd_get (w : GetWorld) : GetResult :=
  if ¬ (w.connected ∧ w.logged_in) then ⟨[], false, false, false⟩
  else if ¬ w.hasArgs then ⟨[], false, false, false⟩
  else
    let nevs := (open_data_connection w.passiveMode w.neg).1
    let ok := (open_data_connection w.passiveMode w.neg).2
    if ¬ ok then ⟨nevs, false, false, false⟩
    else
      let evs := nevs ++ [Ev.sendCmd ("RETR " ++ w.remoteFile)]
      match w.retrReply with
      | none => ⟨evs, false, false, false⟩
      | some raw =>
        if (mkFTPResponse raw).is_positive_preliminary then
          let evs := evs ++ (if w.passiveMode then [] else [Ev.dataAccepted])
          let created : Bool := w.recvOutcome != RecvOutcome.openFailed
          let success : Bool := w.recvOutcome == RecvOutcome.completed
          let evs := evs ++ [Ev.dataClosed]
          match w.doneReply with
          | none => ⟨evs, created, created, false⟩
          | some raw2 =>
            if success && (mkFTPResponse raw2).is_positive then
              ⟨evs, created, created, true⟩
            else
              ⟨evs, created, created && !w.removeOk, false⟩
        else ⟨evs ++ [Ev.dataClosed], false, false, false⟩

/-! ## Theorems for the claims -/

/-- Claim C1: for every upload in which the scan gateway returns a result
with status INFECTED, `cmd_put` aborts before any data channel is opened and
before any command (in particular STOR) is sent on the control connection:
the trace contains no `sendCmd`, no data-socket creation, no listening
socket and no accept. -/
theorem cmd_put_infected_blocks (w : PutWorld)
    (h : w.scanResult.status = "INFECTED") :
    (∀ s, Ev.sendCmd s ∉ cmd_put w) ∧ Ev.dataConnected ∉ cmd_put w ∧
    Ev.dataListening ∉ cmd_put w ∧ Ev.dataAccepted ∉ cmd_put w := by
  refine ⟨fun s => ?_, ?_, ?_, ?_⟩ <;>
    (unfold cmd_put; split_ifs <;> simp_all)

/-- Claim C5: `scan_file` maps a completed scanner subprocess with exit
code 0 to status OK, exit code 1 to INFECTED, any other exit code to ERROR
with the captured stderr text attached as `details`, and a subprocess
timeout to ERROR with the timeout diagnostic as `details`. -/
theorem scan_file_mapping (out err : String) (rc : Int) :
    (scan_file (.completed 0 out err)).status = "OK" ∧
    (scan_file (.completed 1 out err)).status = "INFECTED" ∧
    (rc ≠ 0 → rc ≠ 1 →
      (scan_file (.completed rc out err)).status = "ERROR" ∧
      (scan_file (.completed rc out err)).details = (⟨pyStrip err.data⟩ : String)) ∧
    (scan_file ScanProcOutcome.timedOut).status = "ERROR" ∧
    (scan_file ScanProcOutcome.timedOut).details = "Scan took too long" := by
  refine ⟨rfl, rfl, fun h0 h1 => ?_, rfl, rfl⟩
  simp [scan_file, h0, h1]

/-- Counterexample to claim C3 as stated: a connection on which every
protocol step succeeds but sending the JSON result raises reaches the
closed state with the temp scan file created and not deleted. -/
theorem handle_client_temp_leak_cex :
    (handle_client ⟨some "FILENAME:f.txt", true, some "SIZE:10", true, true, true,
        ScanProcOutcome.completed 0 "" "", false, true⟩).tempCreated = true ∧
    (handle_client ⟨some "FILENAME:f.txt", true, some "SIZE:10", true, true, true,
        ScanProcOutcome.completed 0 "" "", false, true⟩).tempDeleted = false := by
  decide

lemma handle_client_spec (c : AgentConn) :
    handle_client c = ⟨false, false⟩ ∨
    handle_client c = ⟨true, c.recvLoopOk && c.sendResultOk && c.unlinkOk⟩ := by
  unfold handle_client
  repeat' split
  all_goals simp_all

/-- Claim C3 (amended): when `handle_client` creates a temp scan file, the
file is deleted at close exactly when the payload-receive loop, the result
send and the unlink each complete without raising; on an I/O failure
mid-payload or while sending the result, the handler closes without
deleting the temp file. -/
theorem handle_client_cleanup_amended (c : AgentConn)
    (h : (handle_client c).tempCreated = true) :
    (handle_client c).tempDeleted = (c.recvLoopOk && c.sendResultOk && c.unlinkOk) := by
  rcases handle_client_spec c with hs | hs
  · rw [hs] at h
    exact absurd h (by decide)
  · rw [hs]

/-- Witness for claim C3 (amended) on a fully successful connection. -/
theorem handle_client_cleanup_amended_witness :
    (handle_client ⟨some "FILENAME:g.txt", true, some "SIZE:4", true, true, true,
        ScanProcOutcome.completed 1 "sig" "", true, true⟩).tempDeleted = true := by
  have h := handle_client_cleanup_amended
    ⟨some "FILENAME:g.txt", true, some "SIZE:4", true, true, true,
      ScanProcOutcome.completed 1 "sig" "", true, true⟩ (by decide)
  simpa using h

/-- Counterexample to claim C9 as stated: a download whose byte stream
aborts after bytes were written and whose completion-reply read raises
leaves the local file in place although the download failed. -/
theorem cmd_get_leftover_file_cex :
    (cmd_get ⟨true, true, true, "a.txt", true,
        ⟨some "227 Entering Passive Mode (127,0,0,1,5,6)", true, "", 0, none⟩,
        some "150 Opening data connection", RecvOutcome.abortedAfterWrite,
        none, true⟩).fileCreated = true ∧
    (cmd_get ⟨true, true, true, "a.txt", true,
        ⟨some "227 Entering Passive Mode (127,0,0,1,5,6)", true, "", 0, none⟩,
        some "150 Opening data connection", RecvOutcome.abortedAfterWrite,
        none, true⟩).succeeded = false ∧
    (cmd_get ⟨true, true, true, "a.txt", true,
        ⟨some "227 Entering Passive Mode (127,0,0,1,5,6)", true, "", 0, none⟩,
        some "150 Opening data connection", RecvOutcome.abortedAfterWrite,
        none, true⟩).fileRemains = true := by
  decide

lemma cmd_get_created (w : GetWorld) (h1 : (cmd_get w).fileCreated = true) :
    w.connected = true ∧ w.logged_in = true ∧ w.hasArgs = true ∧
    (open_data_connection w.passiveMode w.neg).2 = true ∧
    ∃ r1, w.retrReply = some r1 ∧ (mkFTPResponse r1).is_positive_preliminary = true ∧
      w.recvOutcome ≠ RecvOutcome.openFailed := by
  unfold cmd_get at h1
  repeat' split at h1
  all_goals cases hok : (open_data_connection w.passiveMode w.neg).2
  all_goals simp [hok] at h1
  all_goals try split at h1
  all_goals simp_all

lemma cmd_get_transfer (w : GetWorld) (hcl : w.connected = true) (hli : w.logged_in = true)
    (ha : w.hasArgs = true) (hok : (open_data_connection w.passiveMode w.neg).2 = true)
    (r1 : String) (hr1 : w.retrReply = some r1)
    (hpre : (mkFTPResponse r1).is_positive_preliminary = true) :
    (cmd_get w).fileCreated = (w.recvOutcome != RecvOutcome.openFailed) ∧
    (cmd_get w).succeeded = (match w.doneReply with
      | none => false
      | some r2 => (w.recvOutcome == RecvOutcome.completed) && (mkFTPResponse r2).is_positive) ∧
    (cmd_get w).fileRemains = (match w.doneReply with
      | none => (w.recvOutcome != RecvOutcome.openFailed)
      | some r2 =>
        if (w.recvOutcome == RecvOutcome.completed) && (mkFTPResponse r2).is_positive
        then (w.recvOutcome != RecvOutcome.openFailed)
        else (w.recvOutcome != RecvOutcome.openFailed) && !w.removeOk) := by
  unfold cmd_get
  rcases hdr : w.doneReply with _ | r2
  all_goals simp [hcl, hli, ha, hok, hpre, hr1, hdr]
  all_goals split_ifs
  all_goals simp_all

/-- Claim C9 (amended): for every download that fails after the local
destination file was written, the local file is removed when the
completion-reply read itself returned a reply and the removal call
succeeds; when the completion-reply read raises, the file is left in
place. -/
theorem cmd_get_cleanup_amended (w : GetWorld)
    (h1 : (cmd_get w).fileCreated = true) (h2 : (cmd_get w).succeeded = false) :
    (w.doneReply ≠ none → w.removeOk = true → (cmd_get w).fileRemains = false) ∧
    (w.doneReply = none → (cmd_get w).fileRemains = true) := by
  obtain ⟨hcl, hli, ha, hok, r1, hr1, hpre, hro⟩ := cmd_get_created w h1
  obtain ⟨hc, hsu, hr⟩ := cmd_get_transfer w hcl hli ha hok r1 hr1 hpre
  constructor
  · intro hne hrm
    rcases hdr : w.doneReply with _ | r2
    · exact absurd hdr hne
    · rw [hdr] at hsu hr
      simp only at hsu hr
      rw [hsu] at h2
      rw [hr]
      simp [h2, hrm]
  · intro hdr
    rw [hdr] at hr
    rw [hr]
    simpa using hro

/-- Witness for claim C9 (amended): an aborted stream followed by a read
completion reply leads to the local file being removed. -/
theorem cmd_get_cleanup_amended_witness :
    (cmd_get ⟨true, true, true, "b.txt", true,
        ⟨some "227 Entering Passive Mode (127,0,0,1,5,6)", true, "", 0, none⟩,
        some "150 Opening data connection", RecvOutcome.abortedAfterWrite,
        some "226 Transfer complete", true⟩).fileRemains = false := by
  have h := cmd_get_cleanup_amended ⟨true, true, true, "b.txt", true,
      ⟨some "227 Entering Passive Mode (127,0,0,1,5,6)", true, "", 0, none⟩,
      some "150 Opening data connection", RecvOutcome.abortedAfterWrite,
      some "226 Transfer complete", true⟩ (by decide) (by decide)
  exact h.1 (by decide) rfl

/-- Witness for claim C1 at a concrete INFECTED upload environment. -/
theorem cmd_put_infected_blocks_witness :
    Ev.dataConnected ∉ cmd_put ⟨true, true, true, "evil.exe", true,
        ⟨"INFECTED", "Virus detected", "Eicar-Signature"⟩, "", true,
        ⟨some "227 Entering Passive Mode (127,0,0,1,5,6)", true, "", 0, none⟩,
        some "150 ok", true, some "226 done"⟩ ∧
    Ev.sendCmd "PASV" ∉ cmd_put ⟨true, true, true, "evil.exe", true,
        ⟨"INFECTED", "Virus detected", "Eicar-Signature"⟩, "", true,
        ⟨some "227 Entering Passive Mode (127,0,0,1,5,6)", true, "", 0, none⟩,
        some "150 ok", true, some "226 done"⟩ := by
  have h := cmd_put_infected_blocks ⟨true, true, true, "evil.exe", true,
      ⟨"INFECTED", "Virus detected", "Eicar-Signature"⟩, "", true,
      ⟨some "227 Entering Passive Mode (127,0,0,1,5,6)", true, "", 0, none⟩,
      some "150 ok", true, some "226 done"⟩ rfl
  exact ⟨h.2.1, h.1 "PASV"⟩

/-- Witness for claim C5 at exit codes 0 and 2. -/
theorem scan_file_mapping_witness :
    (scan_file (.completed 0 "scan ok" "")).status = "OK" ∧
    (scan_file (.completed 2 "" "engine failure")).status = "ERROR" := by
  have h := scan_file_mapping "scan ok" "engine failure" 2
  exact ⟨h.1, (h.2.2.1 (by decide) (by decide)).1⟩

/-- Claim C2: `send_file_to_clamav` returns status INFECTED only when the
agent reply decoded to a result that itself carries status INFECTED (and is
returned verbatim); a non-READY reply to the FILENAME or SIZE step, any
transport failure, and an unparseable agent reply each yield status ERROR,
never OK. -/
theorem clam_error_discipline (w : ClamWorld) :
    ((send_file_to_clamav w).status = "INFECTED" →
      ∃ a, w.resultMsg = some (some a) ∧ a.status = "INFECTED" ∧ send_file_to_clamav w = a) ∧
    (w.reply1 ≠ some "READY" → (send_file_to_clamav w).status = "ERROR") ∧
    (w.reply2 ≠ some "READY" → (send_file_to_clamav w).status = "ERROR") ∧
    (w.connectOk = false → (send_file_to_clamav w).status = "ERROR") ∧
    (w.sendNameOk = false → (send_file_to_clamav w).status = "ERROR") ∧
    (w.sendSizeOk = false → (send_file_to_clamav w).status = "ERROR") ∧
    (w.sendDataOk = false → (send_file_to_clamav w).status = "ERROR") ∧
    (w.resultMsg = none → (send_file_to_clamav w).status = "ERROR") ∧
    (w.resultMsg = some none → (send_file_to_clamav w).status = "ERROR") := by
  unfold send_file_to_clamav clamFailure
  repeat' split
  all_goals simp_all

/-- Witness for claim C2: a BUSY reply to the FILENAME step yields ERROR
even though the agent would later report a clean scan. -/
theorem clam_error_discipline_witness :
    (send_file_to_clamav ⟨true, true, true, some "BUSY", true, some "READY", true,
        some (some ⟨"OK", "File is clean", ""⟩)⟩).status = "ERROR" := by
  have h := clam_error_discipline ⟨true, true, true, some "BUSY", true, some "READY", true,
      some (some ⟨"OK", "File is clean", ""⟩)⟩
  exact h.2.1 (by decide)

lemma connect_state (st : ClientState) (g : Greeting) :
    (connect st g).2 = st ∨ (connect st g).2 = { st with connected := true } := by
  unfold connect
  repeat' split
  all_goals simp_all

lemma login_state_cases (st : ClientState) (w : LoginWorld) :
    (login st w).2 = st ∨
    ((login st w).2 = { st with logged_in := true } ∧ st.connected = true) := by
  unfold login loginFinish
  repeat' split
  all_goals dsimp only
  all_goals (try split_ifs)
  all_goals simp_all

/-- Claim C7: the invariant `logged_in implies connected` is preserved by
every client operation; `login` leaves the state unchanged when not
connected (so it can set `logged_in` only while connected); under the
invariant, `disconnect` leaves both flags false together. -/
theorem session_flags_invariant (st : ClientState) (op : ClientOp)
    (hinv : st.logged_in = true → st.connected = true) :
    ((stepClient st op).logged_in = true → (stepClient st op).connected = true) ∧
    (∀ w, st.connected = false → login st w = (false, st)) ∧
    ((stepClient st ClientOp.disconnectOp).connected = false ∧
     (stepClient st ClientOp.disconnectOp).logged_in = false) := by
  refine ⟨?_, ?_, ?_⟩
  · cases op with
    | connectOp g =>
      rcases connect_state st g with h | h <;> rw [stepClient, h]
      · exact hinv
      · simp
    | loginOp w =>
      rcases login_state_cases st w with h | ⟨h, hc⟩ <;> rw [stepClient, h]
      · exact hinv
      · simp [hc]
    | disconnectOp =>
      rw [stepClient]
      unfold disconnect
      split_ifs with h <;> simp_all
  · intro w hc
    unfold login
    simp [hc]
  · rw [stepClient]
    unfold disconnect
    split_ifs with h <;> simp_all

/-- Witness for claim C7: disconnecting an authenticated session resets
both flags. -/
theorem session_flags_invariant_witness :
    (stepClient ⟨true, true⟩ ClientOp.disconnectOp).connected = false ∧
    (stepClient ⟨true, true⟩ ClientOp.disconnectOp).logged_in = false :=
  (session_flags_invariant ⟨true, true⟩ ClientOp.disconnectOp (by decide)).2.2
lemma char_eq_of_toNat {c d : Char} (h : c.toNat = d.toNat) : c = d := by
  rw [← Char.ofNat_toNat c, h, Char.ofNat_toNat d]

lemma isDigitC_not_space {c : Char} (h : isDigitC c = true) : pyIsSpace c = false := by
  simp only [isDigitC, Bool.and_eq_true, decide_eq_true_eq] at h
  simp only [pyIsSpace, Bool.or_eq_false_iff, decide_eq_false_iff_not]
  omega

lemma isDigitC_ne_newline {c : Char} (h : isDigitC c = true) : (c ≠ '\n') = True := by
  simp only [ne_eq, eq_iff_iff, iff_true]
  intro he
  rw [he] at h
  exact absurd h (by decide)

lemma decChar_spec {n : Nat} (h : n < 10) :
    isDigitC (decChar n) = true ∧ digitVal (decChar n) = n := by
  interval_cases n <;> exact ⟨by decide, by decide⟩

lemma valFold_append (a : Nat) (l l' : List Char) :
    valFold a (l ++ l') = valFold (valFold a l) l' := by
  simp [valFold, List.foldl_append]

lemma decDigitsAux_spec :
    ∀ fuel n, n < fuel →
      decDigitsAux fuel n ≠ [] ∧ (decDigitsAux fuel n).all isDigitC = true ∧
      ∀ a, valFold a (decDigitsAux fuel n) = a * 10 ^ (decDigitsAux fuel n).length + n := by
  intro fuel
  induction fuel with
  | zero => intro n hn; omega
  | succ fuel ih =>
    intro n hn
    by_cases h10 : n < 10
    · simp only [decDigitsAux, if_pos h10]
      refine ⟨by simp, by simp [(decChar_spec h10).1], fun a => ?_⟩
      simp [valFold, (decChar_spec h10).2]
      ring
    · have hpos : 0 < n := by omega
      have hdiv : n / 10 < n := Nat.div_lt_self hpos (by omega)
      have hfuel : n / 10 < fuel := by omega
      obtain ⟨hne, hall, hval⟩ := ih (n / 10) hfuel
      have hm : n % 10 < 10 := Nat.mod_lt n (by omega)
      simp only [decDigitsAux, if_neg h10]
      refine ⟨by simp, ?_, fun a => ?_⟩
      · simp [List.all_append, hall, (decChar_spec hm).1]
      · rw [valFold_append, hval a]
        have hdm := Nat.div_add_mod n 10
        simp [valFold, (decChar_spec hm).2, List.length_append, pow_succ]
        ring_nf
        omega

lemma decDigits_ne_nil (n : Nat) : decDigits n ≠ [] :=
  (decDigitsAux_spec (n + 1) n (by omega)).1

lemma decDigits_all (n : Nat) : (decDigits n).all isDigitC = true :=
  (decDigitsAux_spec (n + 1) n (by omega)).2.1

lemma valFold_decDigits (n : Nat) : valFold 0 (decDigits n) = n := by
  have h := (decDigitsAux_spec (n + 1) n (by omega)).2.2 0
  simpa using h

lemma takeWhile_append_of_all {p : Char → Bool} {xs : List Char} (ys : List Char)
    (h : xs.all p = true) : (xs ++ ys).takeWhile p = xs ++ ys.takeWhile p := by
  induction xs with
  | nil => simp
  | cons x xs ih =>
    simp only [List.all_cons, Bool.and_eq_true] at h
    simp [List.takeWhile_cons, h.1, ih h.2]

lemma dropWhile_append_of_all {p : Char → Bool} {xs : List Char} (ys : List Char)
    (h : xs.all p = true) : (xs ++ ys).dropWhile p = ys.dropWhile p := by
  induction xs with
  | nil => simp
  | cons x xs ih =>
    simp only [List.all_cons, Bool.and_eq_true] at h
    simp [List.dropWhile_cons, h.1, ih h.2]

lemma readNat_digits {c : Char} (hc : isDigitC c = false) (n : Nat) (rest : List Char) :
    readNat (decDigits n ++ c :: rest) = some (n, c :: rest) := by
  unfold readNat
  rw [takeWhile_append_of_all _ (decDigits_all n),
      dropWhile_append_of_all _ (decDigits_all n)]
  simp [List.takeWhile_cons, List.dropWhile_cons, hc,
        decDigits_ne_nil n, valFold_decDigits n,
        List.isEmpty_iff]
lemma expectChar_cons_self (c : Char) (rest : List Char) :
    expectChar c (c :: rest) = some rest := by
  simp [expectChar]

lemma readGroupSep_digits {sep : Char} (hs : isDigitC sep = false) (n : Nat)
    (rest : List Char) :
    readGroupSep sep (decDigits n ++ sep :: rest) = some (n, rest) := by
  unfold readGroupSep
  rw [readNat_digits hs]
  simp [expectChar_cons_self]

lemma matchSext_build (a b c d e f : Nat) (rest : List Char) :
    matchSext ('(' :: (decDigits a ++ ',' :: (decDigits b ++ ',' :: (decDigits c ++ ',' ::
        (decDigits d ++ ',' :: (decDigits e ++ ',' :: (decDigits f ++ ')' :: rest))))))) =
      some (a, b, c, d, e, f) := by
  have hcom : isDigitC ',' = false := by decide
  have hpar : isDigitC ')' = false := by decide
  unfold matchSext
  rw [expectChar_cons_self]
  simp only [readGroupSep_digits hcom, readGroupSep_digits hpar]

lemma findSext_cons_ne {ch : Char} (h : ch ≠ '(') (rest : List Char) :
    findSext (ch :: rest) = findSext rest := by
  have hm : matchSext (ch :: rest) = none := by
    unfold matchSext
    simp [expectChar, h]
  simp [findSext, hm]

lemma findSext_append_no_paren {pre : List Char} (h : '(' ∉ pre) (l : List Char) :
    findSext (pre ++ l) = findSext l := by
  induction pre with
  | nil => rfl
  | cons x xs ih =>
    simp only [List.mem_cons, not_or] at h
    rw [List.cons_append, findSext_cons_ne (fun he => h.1 he.symm), ih h.2]

lemma findSext_of_match {l : List Char} {r : Nat × Nat × Nat × Nat × Nat × Nat}
    (h : matchSext l = some r) : findSext l = some r := by
  cases l with
  | nil =>
    rw [show matchSext [] = none from rfl] at h
    exact absurd h (by simp)
  | cons x xs => simp [findSext, h]
lemma natToString_data (n : Nat) : (natToString n).data = decDigits n := rfl

lemma decDigits_ne_of {ch : Char} (hch : isDigitC ch = false) (n : Nat) :
    ∀ c ∈ decDigits n, c ≠ ch := by
  intro c hmem hce
  have hall := decDigits_all n
  rw [List.all_eq_true] at hall
  have := hall c hmem
  rw [hce, hch] at this
  exact absurd this (by simp)

lemma splitOnChar_no_sep {sep : Char} {xs : List Char} (h : ∀ c ∈ xs, c ≠ sep) :
    splitOnChar sep xs = [xs] := by
  induction xs with
  | nil => rfl
  | cons x rest ih =>
    have hx : x ≠ sep := h x (by simp)
    have hr := ih (fun c hm => h c (by simp [hm]))
    simp [splitOnChar, hx, hr]

lemma splitOnChar_append {sep : Char} {xs : List Char} (h : ∀ c ∈ xs, c ≠ sep)
    (rest : List Char) :
    splitOnChar sep (xs ++ sep :: rest) = xs :: splitOnChar sep rest := by
  induction xs with
  | nil => simp [splitOnChar]
  | cons x xs ih =>
    have hx : x ≠ sep := h x (by simp)
    have hr := ih (fun c hm => h c (by simp [hm]))
    rw [List.cons_append]
    simp only [splitOnChar, if_neg hx, hr]

lemma splitOnChar_ip (a b c d : Nat) :
    splitOnChar '.' (decDigits a ++ '.' :: (decDigits b ++ '.' :: (decDigits c ++ '.' ::
        decDigits d))) = [decDigits a, decDigits b, decDigits c, decDigits d] := by
  have hdot : isDigitC '.' = false := by decide
  rw [splitOnChar_append (decDigits_ne_of hdot a),
      splitOnChar_append (decDigits_ne_of hdot b),
      splitOnChar_append (decDigits_ne_of hdot c),
      splitOnChar_no_sep (decDigits_ne_of hdot d)]

/-- Claim C8: for every IPv4 quadruple and port in 0-65535, encoding with
`create_port_command` (p1 = port/256, p2 = port%256) and decoding the
parenthesized sextuple with `parse_pasv_response` (port = p1*256 + p2)
round-trips to the original address and port. -/
theorem pasv_port_roundtrip (a b c d p : Nat)
    (_ha : a ≤ 255) (_hb : b ≤ 255) (_hc : c ≤ 255) (_hd : d ≤ 255) (_hp : p ≤ 65535) :
    create_port_command
        (natToString a ++ "." ++ natToString b ++ "." ++ natToString c ++ "." ++ natToString d) p
      = some ("PORT " ++ natToString a ++ "," ++ natToString b ++ "," ++ natToString c ++ "," ++
              natToString d ++ "," ++ natToString (p / 256) ++ "," ++ natToString (p % 256)) ∧
    parse_pasv_response
        ("227 Entering Passive Mode (" ++ natToString a ++ "," ++ natToString b ++ "," ++
         natToString c ++ "," ++ natToString d ++ "," ++ natToString (p / 256) ++ "," ++
         natToString (p % 256) ++ ")")
      = some (natToString a ++ "." ++ natToString b ++ "." ++ natToString c ++ "." ++
              natToString d, p) := by
  have hhost : (natToString a ++ "." ++ natToString b ++ "." ++ natToString c ++ "." ++
      natToString d).data = decDigits a ++ '.' :: (decDigits b ++ '.' :: (decDigits c ++ '.' ::
      decDigits d)) := by
    simp [String.data_append, natToString_data, show ("." : String).data = ['.'] from rfl,
          List.append_assoc]
  constructor
  · unfold create_port_command
    rw [hhost, splitOnChar_ip]
    simp only [List.length_cons, List.length_nil, if_pos rfl]
    refine congrArg some (String.ext ?_)
    simp [String.data_append, natToString_data, joinWithChar,
          show ("," : String).data = [','] from rfl, List.append_assoc]
  · have hdata : ("227 Entering Passive Mode (" ++ natToString a ++ "," ++ natToString b ++ "," ++
        natToString c ++ "," ++ natToString d ++ "," ++ natToString (p / 256) ++ "," ++
        natToString (p % 256) ++ ")").data =
        ("227 Entering Passive Mode " : String).data ++ ('(' ::
          (decDigits a ++ ',' :: (decDigits b ++ ',' :: (decDigits c ++ ',' ::
           (decDigits d ++ ',' :: (decDigits (p / 256) ++ ',' ::
            (decDigits (p % 256) ++ ')' :: ([] : List Char)))))))) := by
      simp [String.data_append, natToString_data,
            show ("227 Entering Passive Mode (" : String).data =
              ("227 Entering Passive Mode " : String).data ++ ['('] from rfl,
            show ("," : String).data = [','] from rfl,
            show (")" : String).data = [')'] from rfl, List.append_assoc]
    have hnop : '(' ∉ ("227 Entering Passive Mode " : String).data := by decide
    unfold parse_pasv_response
    rw [hdata, findSext_append_no_paren hnop,
        findSext_of_match (matchSext_build a b c d (p / 256) (p % 256) [])]
    dsimp only
    have hdm : p / 256 * 256 + p % 256 = p := by
      have := Nat.div_add_mod p 256
      omega
    rw [hdm]

/-- Witness for claim C8: address 192.168.1.100 with port 5141 encodes to
and parses from the sextuple (192,168,1,100,20,21). -/
theorem pasv_port_roundtrip_witness :
    create_port_command "192.168.1.100" 5141 = some "PORT 192,168,1,100,20,21" ∧
    parse_pasv_response "227 Entering Passive Mode (192,168,1,100,20,21)"
      = some ("192.168.1.100", 5141) := by
  have h := pasv_port_roundtrip 192 168 1 100 5141
    (by decide) (by decide) (by decide) (by decide) (by decide)
  exact h
lemma findSext_none_iff (l : List Char) :
    findSext l = none ↔ (l.tails.all fun t => (matchSext t).isNone) = true := by
  induction l with
  | nil => simp [findSext, matchSext, expectChar]
  | cons x xs ih =>
    cases hm : matchSext (x :: xs) with
    | some r => simp [findSext, hm, List.tails_cons]
    | none => simp [findSext, hm, List.tails_cons, ih]

/-- Claim C10: `parse_pasv_response` is a total function; it returns
`none` exactly when no position of the input matches the parenthesized
six-integer pattern; when a match exists it decodes the first one and
performs no range validation, accepting octets above 255 and ports above
65535 as-is. -/
theorem parse_pasv_total_first_match :
    (∀ s : String, parse_pasv_response s = none ↔
      (s.data.tails.all fun t => (matchSext t).isNone) = true) ∧
    parse_pasv_response "227 Entering Passive Mode" = none ∧
    parse_pasv_response "(300,1,2,3,260,300)" = some ("300.1.2.3", 66860) ∧
    parse_pasv_response "(1,2,3,4,5)" = none ∧
    parse_pasv_response "(9,9,9,9,9,9) (1,2,3,4,5,6)" = some ("9.9.9.9", 2313) := by
  refine ⟨fun s => ?_, by decide, by decide, by decide, by decide⟩
  rw [← findSext_none_iff]
  unfold parse_pasv_response
  cases hf : findSext s.data with
  | none => simp
  | some r =>
    rcases r with ⟨a, b, c, d, e, f⟩
    simp
lemma isDigitC_bounds {c : Char} (h : isDigitC c = true) :
    48 ≤ c.toNat ∧ c.toNat ≤ 57 := by
  simpa [isDigitC, Bool.and_eq_true, decide_eq_true_eq] using h

lemma dropWhile_of_all_neg {p : Char → Bool} {l : List Char}
    (h : ∀ c ∈ l, p c = false) : l.dropWhile p = l := by
  induction l with
  | nil => rfl
  | cons x xs ih =>
    rw [List.dropWhile_cons, if_neg (by simp [h x (by simp)])]
    

lemma pyStrip_digit_head (ds l' : List Char) (hne : ds ≠ [])
    (hall : ds.all isDigitC = true) : ∃ t, pyStrip (ds ++ l') = ds ++ t := by
  unfold pyStrip
  obtain ⟨d, ds', rfl⟩ : ∃ d ds', ds = d :: ds' := by
    cases ds with
    | nil => exact absurd rfl hne
    | cons d ds' => exact ⟨d, ds', rfl⟩
  have hd : isDigitC d = true := by
    rw [List.all_cons, Bool.and_eq_true] at hall
    exact hall.1
  have h1 : List.dropWhile pyIsSpace ((d :: ds') ++ l') = (d :: ds') ++ l' := by
    rw [List.cons_append, List.dropWhile_cons, if_neg (by simp [isDigitC_not_space hd])]
  rw [h1, List.reverse_append, List.dropWhile_append]
  have hds : ∀ c ∈ (d :: ds').reverse, pyIsSpace c = false := by
    intro c hm
    rw [List.mem_reverse] at hm
    rw [List.all_eq_true] at hall
    exact isDigitC_not_space (hall c hm)
  by_cases he : (List.dropWhile pyIsSpace l'.reverse).isEmpty = true
  · rw [if_pos he, dropWhile_of_all_neg hds, List.reverse_reverse]
    exact ⟨[], by simp⟩
  · rw [if_neg he, List.reverse_append, List.reverse_reverse]
    exact ⟨(List.dropWhile pyIsSpace l'.reverse).reverse, rfl⟩

lemma digits_all_ne_newline {ds : List Char} (hall : ds.all isDigitC = true) :
    ds.all (fun c => decide (c ≠ '\n')) = true := by
  rw [List.all_eq_true] at hall ⊢
  intro c hm
  have := isDigitC_bounds (hall c hm)
  simp only [decide_eq_true_eq]
  intro he
  rw [he] at this
  revert this
  decide

lemma mkFTPResponse_code_of_strip (s : String) (ds : List Char) (h3 : ds.length = 3)
    (hall : ds.all isDigitC = true) (hpre : (pyStrip s.data).take 3 = ds) :
    (mkFTPResponse s).code = some (valFold 0 ds) := by
  obtain ⟨t, ht⟩ : ∃ t, pyStrip s.data = ds ++ t :=
    ⟨(pyStrip s.data).drop 3, by rw [← hpre, List.take_append_drop]⟩
  unfold mkFTPResponse
  rw [ht, takeWhile_append_of_all _ (digits_all_ne_newline hall)]
  have htake : (ds ++ List.takeWhile (fun c => decide (c ≠ '\n')) t).take 3 = ds := by
    rw [← h3, List.take_left]
  rw [if_pos ?hcond, htake]
  case hcond =>
    refine ⟨?_, by rw [htake]; exact hall⟩
    rw [List.length_append]
    omega

lemma mkFTPResponse_code_none (s : String)
    (h : ¬(3 ≤ (pyStrip s.data).length ∧ ((pyStrip s.data).take 3).all isDigitC = true)) :
    (mkFTPResponse s).code = none := by
  unfold mkFTPResponse
  rw [if_neg]
  rintro ⟨hlen, hdig⟩
  apply h
  have hpfx : (pyStrip s.data).takeWhile (fun c => decide (c ≠ '\n')) <+: pyStrip s.data :=
    List.takeWhile_prefix _
  obtain ⟨u, hu⟩ := hpfx
  constructor
  · rw [← hu, List.length_append]
    omega
  · rw [← hu, List.take_append_eq_append_take,
        show 3 - ((pyStrip s.data).takeWhile (fun c => decide (c ≠ '\n'))).length = 0 by omega]
    simpa using hdig

lemma preds_of_code_none {r : FTPResponse} (h : r.code = none) :
    r.is_positive_preliminary = false ∧ r.is_positive = false ∧
    r.is_positive_intermediate = false ∧ r.is_error = false := by
  unfold FTPResponse.is_positive_preliminary FTPResponse.is_positive
    FTPResponse.is_positive_intermediate FTPResponse.is_error
  rw [h]
  exact ⟨rfl, rfl, rfl, rfl⟩
lemma exactlyOne_classification {r : FTPResponse} {v : Nat} (hcode : r.code = some v)
    (h1 : 100 ≤ v) (h2 : v ≤ 599) :
    exactlyOne r.is_positive_preliminary r.is_positive r.is_positive_intermediate
      r.is_error = true := by
  unfold exactlyOne FTPResponse.is_positive_preliminary FTPResponse.is_positive
    FTPResponse.is_positive_intermediate FTPResponse.is_error
  rw [hcode]
  have h0 : v ≠ 0 := by omega
  rcases Nat.lt_or_ge v 200 with hA | hA
  · simp [h0, h1, hA, show ¬(200 ≤ v) by omega, show ¬(300 ≤ v) by omega,
          show ¬(400 ≤ v) by omega]
  · rcases Nat.lt_or_ge v 300 with hB | hB
    · simp [h0, hA, hB, show ¬(v < 200) by omega, show ¬(300 ≤ v) by omega,
            show ¬(400 ≤ v) by omega]
    · rcases Nat.lt_or_ge v 400 with hC | hC
      · simp [h0, hB, hC, show ¬(v < 200) by omega, show ¬(v < 300) by omega,
              show ¬(400 ≤ v) by omega]
      · simp [h0, hC, show ¬(v < 200) by omega, show ¬(v < 300) by omega,
              show ¬(v < 400) by omega, show ¬(200 ≤ v) = False by simp; omega]

/-- Claim C4 (amended): a reply line whose own first three characters are
ASCII digits forming a code in 100-599 parses to that code, and exactly one
of the four classification predicates returns true on it; a line that even
after stripping surrounding whitespace does not start with three ASCII
digits parses to an absent code, and all four predicates return false. -/
theorem ftp_response_classification_amended (s : String) :
    ((s.data.take 3).length = 3 → (s.data.take 3).all isDigitC = true →
      100 ≤ valFold 0 (s.data.take 3) → valFold 0 (s.data.take 3) ≤ 599 →
      (mkFTPResponse s).code = some (valFold 0 (s.data.take 3)) ∧
      exactlyOne (mkFTPResponse s).is_positive_preliminary (mkFTPResponse s).is_positive
        (mkFTPResponse s).is_positive_intermediate (mkFTPResponse s).is_error = true) ∧
    (¬(3 ≤ (pyStrip s.data).length ∧ ((pyStrip s.data).take 3).all isDigitC = true) →
      (mkFTPResponse s).code = none ∧
      (mkFTPResponse s).is_positive_preliminary = false ∧
      (mkFTPResponse s).is_positive = false ∧
      (mkFTPResponse s).is_positive_intermediate = false ∧
      (mkFTPResponse s).is_error = false) := by
  constructor
  · intro hlen hdig hlo hhi
    have hne : s.data.take 3 ≠ [] := by
      intro he
      rw [he] at hlen
      simp at hlen
    obtain ⟨t, ht⟩ := pyStrip_digit_head (s.data.take 3) (s.data.drop 3) hne hdig
    rw [List.take_append_drop] at ht
    have hpre : (pyStrip s.data).take 3 = s.data.take 3 := by
      rw [ht, List.take_append_eq_append_take, hlen]
      simp [List.take_take]
    have hcode := mkFTPResponse_code_of_strip s (s.data.take 3) hlen hdig hpre
    exact ⟨hcode, exactlyOne_classification hcode hlo hhi⟩
  · intro h
    have hcode := mkFTPResponse_code_none s h
    exact ⟨hcode, preds_of_code_none hcode⟩

/-- Counterexample to claim C4 as stated: the line " 220 ok" does not
begin with a 3-digit code, yet its parsed code is 220 (not absent) and
`is_positive` returns true, because the constructor strips leading
whitespace first. -/
theorem ftp_response_classification_cex :
    ((" 220 ok" : String).data.take 3).all isDigitC = false ∧
    (mkFTPResponse " 220 ok").code = some 220 ∧
    (mkFTPResponse " 220 ok").is_positive = true := by
  decide

/-- Witness for claim C4 (amended) at lines "331 Need password" and
"abc". -/
theorem ftp_response_classification_amended_witness :
    ((mkFTPResponse "331 Need password").code =
      some (valFold 0 (("331 Need password" : String).data.take 3)) ∧
     exactlyOne (mkFTPResponse "331 Need password").is_positive_preliminary
       (mkFTPResponse "331 Need password").is_positive
       (mkFTPResponse "331 Need password").is_positive_intermediate
       (mkFTPResponse "331 Need password").is_error = true) ∧
    ((mkFTPResponse "abc").code = none ∧
     (mkFTPResponse "abc").is_positive_preliminary = false ∧
     (mkFTPResponse "abc").is_positive = false ∧
     (mkFTPResponse "abc").is_positive_intermediate = false ∧
     (mkFTPResponse "abc").is_error = false) :=
  ⟨(ftp_response_classification_amended "331 Need password").1
      (by decide) (by decide) (by decide) (by decide),
   (ftp_response_classification_amended "abc").2 (by decide)⟩
lemma valFold_three (c1 c2 c3 : Char) :
    valFold 0 [c1, c2, c3] =
      100 * (c1.toNat - 48) + 10 * (c2.toNat - 48) + (c3.toNat - 48) := by
  simp [valFold, List.foldl, digitVal]
  ring

lemma code220_iff_startsWith (raw : String) :
    (mkFTPResponse raw).code = some 220 ↔ pyStartsWith ⟨pyStrip raw.data⟩ "220" = true := by
  constructor
  · intro h
    unfold mkFTPResponse at h
    by_cases hcond : (3 ≤ ((pyStrip raw.data).takeWhile (fun c => decide (c ≠ '\n'))).length ∧
        (((pyStrip raw.data).takeWhile (fun c => decide (c ≠ '\n'))).take 3).all isDigitC = true)
    · rw [if_pos hcond] at h
      simp only [Option.some.injEq] at h
      obtain ⟨hlen, hdig⟩ := hcond
      have hlen3 : (((pyStrip raw.data).takeWhile (fun c => decide (c ≠ '\n'))).take 3).length
          = 3 := by
        rw [List.length_take]
        omega
      obtain ⟨c1, c2, c3, hc⟩ : ∃ c1 c2 c3,
          ((pyStrip raw.data).takeWhile (fun c => decide (c ≠ '\n'))).take 3 = [c1, c2, c3] := by
        rcases e : ((pyStrip raw.data).takeWhile (fun c => decide (c ≠ '\n'))).take 3 with
          _ | ⟨x, _ | ⟨y, _ | ⟨z, _ | _⟩⟩⟩ <;> rw [e] at hlen3 <;> simp at hlen3
        exact ⟨x, y, z, rfl⟩
      rw [hc] at hdig h
      simp only [List.all_cons, List.all_nil, Bool.and_eq_true, Bool.and_true] at hdig
      obtain ⟨hb1, hb2, hb3⟩ := hdig
      have g1 := isDigitC_bounds hb1
      have g2 := isDigitC_bounds hb2
      have g3 := isDigitC_bounds hb3
      rw [valFold_three] at h
      have e1 : c1 = '2' := char_eq_of_toNat (show c1.toNat = ('2' : Char).toNat by
        show c1.toNat = 50
        omega)
      have e2 : c2 = '2' := char_eq_of_toNat (show c2.toNat = ('2' : Char).toNat by
        show c2.toNat = 50
        omega)
      have e3 : c3 = '0' := char_eq_of_toNat (show c3.toNat = ('0' : Char).toNat by
        show c3.toNat = 48
        omega)
      have hpfx : (pyStrip raw.data).takeWhile (fun c => decide (c ≠ '\n')) <+: pyStrip raw.data :=
        List.takeWhile_prefix _
      obtain ⟨u, hu⟩ := hpfx
      have hpre : (pyStrip raw.data).take 3 = [c1, c2, c3] := by
        rw [← hu, List.take_append_eq_append_take,
            show 3 - ((pyStrip raw.data).takeWhile (fun c => decide (c ≠ '\n'))).length = 0
              by omega]
        simpa using hc
      unfold pyStartsWith
      rw [show (⟨pyStrip raw.data⟩ : String).data = pyStrip raw.data from rfl,
          show ("220" : String).data = ['2', '2', '0'] from rfl]
      simp [hpre, e1, e2, e3]
    · rw [if_neg hcond] at h
      exact absurd h (by simp)
  · intro h
    unfold pyStartsWith at h
    rw [show (⟨pyStrip raw.data⟩ : String).data = pyStrip raw.data from rfl,
        show ("220" : String).data = ['2', '2', '0'] from rfl] at h
    simp only [List.length_cons, List.length_nil, beq_iff_eq] at h
    have := mkFTPResponse_code_of_strip raw ['2', '2', '0'] (by decide) (by decide) h
    rw [this]
    decide

/-- Claim C6: `connect` returns true, and sets `connected`, exactly when
a greeting was read whose classification is positive with code 220; on any
other greeting, a read timeout or a connection error it returns false and
an initially-false `connected` flag remains false, with `logged_in`
untouched. -/
theorem connect_greeting_220 (st : ClientState) (g : Greeting)
    (h : st.connected = false) :
    ((connect st g).1 = true ↔
      ∃ raw, g = Greeting.received raw ∧ (mkFTPResponse raw).code = some 220 ∧
        (mkFTPResponse raw).is_positive = true) ∧
    (connect st g).2.connected = (connect st g).1 ∧
    (connect st g).2.logged_in = st.logged_in := by
  cases g with
  | connectFail =>
    refine ⟨?_, by simp [connect, h], by simp [connect]⟩
    simp [connect]
  | recvTimeout =>
    refine ⟨?_, by simp [connect, h], by simp [connect]⟩
    simp [connect]
  | received raw =>
    by_cases hs : pyStartsWith ⟨pyStrip raw.data⟩ "220" = true
    · have hcode : (mkFTPResponse raw).code = some 220 := (code220_iff_startsWith raw).2 hs
      have hpos : (mkFTPResponse raw).is_positive = true := by
        unfold FTPResponse.is_positive
        rw [hcode]
        decide
      refine ⟨?_, by simp [connect, hs], by simp [connect, hs]⟩
      simp only [connect, hs, if_true]
      exact ⟨fun _ => ⟨raw, rfl, hcode, hpos⟩, fun _ => by trivial⟩
    · have hcode : ¬((mkFTPResponse raw).code = some 220) :=
        fun hc => hs ((code220_iff_startsWith raw).1 hc)
      refine ⟨?_, by simp [connect, hs, h], by simp [connect, hs]⟩
      simp only [connect, hs, if_false]
      constructor
      · intro hfalse
        exact absurd hfalse (by simp)
      · rintro ⟨raw2, hraw, hc2, _⟩
        cases hraw
        exact absurd hc2 hcode

/-- Witness for claim C6: greeting 220 connects, greeting 421 does
not. -/
theorem connect_greeting_220_witness :
    (connect ⟨false, false⟩ (Greeting.received "220 Service ready")).1 = true ∧
    (connect ⟨false, false⟩ (Greeting.received "421 Too busy")).1 = false ∧
    (connect ⟨false, false⟩ (Greeting.received "421 Too busy")).2.connected = false := by
  have h1 := connect_greeting_220 ⟨false, false⟩ (Greeting.received "220 Service ready") rfl
  have h2 := connect_greeting_220 ⟨false, false⟩ (Greeting.received "421 Too busy") rfl
  have hb : (connect ⟨false, false⟩ (Greeting.received "421 Too busy")).1 = false := by
    cases he : (connect ⟨false, false⟩ (Greeting.received "421 Too busy")).1 with
    | false => rfl
    | true =>
      obtain ⟨raw, hraw, hc, _⟩ := h2.1.1 he
      cases hraw
      revert hc
      decide
  refine ⟨h1.1.2 ⟨"220 Service ready", rfl, by decide, by decide⟩, hb, ?_⟩
  rw [h2.2.1, hb]

end SecureFTP
